import Mathlib

/-!
Verification of the campus-mobile live transit-stop tracking engine.

Shallow embedding of the JavaScript sources:
  - util/general (militaryToAMPM, sortNearbyMarkers, dynamicSort,
    getDirectionsURL, platformIOS, startReloadAnimation,
    startReloadAnimation2, stopReloadAnimation);
  - DiningService.FetchDining;
  - views/shuttle/ShuttleStop (componentDidMount, startShuttleWatch,
    tryUpdateStop) together with the JavaScript setInterval timer model.

JavaScript strings are modelled as Lean strings (lists of characters),
JavaScript numbers appearing here as mathematical integers or rationals
(every number reached by the embedded code paths is exactly representable),
and a thrown exception as the value none of an Option type.
-/

namespace CampusMobile

/-! ## TimeFormat: militaryToAMPM (util/general) -/

/-- JavaScript s.replace(c, empty): removes the first occurrence of the
character c, leaving the string unchanged when c does not occur. -/
def replaceFirst (c : Char) : List Char → List Char
  | [] => []
  | x :: xs => if x = c then xs else x :: replaceFirst c xs

/-- JavaScript regex replace of one leading zero, as in the source
militaryTime.replace of the pattern anchored zero with the empty string. -/
def stripOneLeadingZero : List Char → List Char
  | '0' :: xs => xs
  | s => s

/-- Decimal digit test for a character. -/
def isDigit (c : Char) : Bool := decide ('0' ≤ c) && decide (c ≤ '9')

/-- Numeric value of a list of decimal digits, most significant first. -/
def digitsToNat (s : List Char) : Nat :=
  s.foldl (fun acc c => 10 * acc + (c.toNat - 48)) 0

/-- JavaScript ToNumber restricted to the digit-string fragment actually
reached by the embedded code: the empty string converts to 0, a nonempty
all-digit string to its value, and every other string here (for example a
string still containing a colon, or a letter) to NaN, modelled as none.
Comparisons against NaN are false in JavaScript. -/
def jsToNumber (s : List Char) : Option Int :=
  if s = [] then some 0
  else if s.all isDigit then some (digitsToNat s) else none

/-- A JavaScript value that is either still a string or has become a number
by arithmetic (the hour variable in militaryToAMPM after the subtraction of
12 holds a number, before it holds a string). -/
inductive JSVal where
  | str : List Char → JSVal
  | num : Int → JSVal
deriving DecidableEq

/-- JavaScript ToString at the point of string concatenation. In the
embedded function a number only arises as hour minus 12 with the hour
numeric and above 12, hence positive, so decimal digits of the natural
part render it exactly. -/
def jsValToChars : JSVal → List Char
  | JSVal.str s => s
  | JSVal.num n => Nat.toDigits 10 n.toNat

/-- The body of militaryToAMPM from util/general, on character lists.
The source takes the first five characters, removes a colon, strips one
leading zero, and then splits into hour and minute substrings only when the
result has length 3 or 4; otherwise both variables stay undefined, the
later comparisons against undefined are all false, and the expression
militaryTimeMM.length throws a TypeError, modelled as none. -/
def militaryToAMPMChars (time : List Char) : Option (List Char) :=
  if time = [] then some []
  else
    let mt := stripOneLeadingZero (replaceFirst ':' (time.take 5))
    let hhmm : Option (List Char × List Char) :=
      if mt.length = 3 then some (mt.take 1, (mt.drop 1).take 2)
      else if mt.length = 4 then some (mt.take 2, (mt.drop 2).take 2)
      else none
    match hhmm with
    | none => none
    | some (hh, mm) =>
      let ampm : List Char :=
        match jsToNumber hh with
        | some v => if v < 12 then ['a', 'm'] else ['p', 'm']
        | none => ['p', 'm']
      let hh2 : JSVal :=
        match jsToNumber hh with
        | some v => if v > 12 then JSVal.num (v - 12) else JSVal.str hh
        | none => JSVal.str hh
      let hh3 : JSVal := if hh2 = JSVal.str ['0'] then JSVal.str ['1', '2'] else hh2
      let mm2 : List Char := if mm = ['0', '0'] then [] else mm
      if mm2.length > 0 then
        some (jsValToChars hh3 ++ [':'] ++ mm2 ++ ampm)
      else
        some (jsValToChars hh3 ++ ampm)

/-- militaryToAMPM on Lean strings; none models a thrown TypeError, and the
JavaScript falsiness test on the argument holds exactly for the empty
string among strings. -/
def militaryToAMPM (time : String) : Option String :=
  (militaryToAMPMChars time.toList).map fun cs => String.mk cs

/-- C4: the time formatter produces exactly the five reference outputs:
empty input gives empty output, a 00 minute part is omitted, hour 0 renders
as 12am, and hours above 12 have 12 subtracted with a pm suffix. -/
theorem militaryToAMPM_reference_outputs :
    militaryToAMPM "" = some "" ∧
    militaryToAMPM "0900" = some "9am" ∧
    militaryToAMPM "1430" = some "2:30pm" ∧
    militaryToAMPM "0005" = some "12:05am" ∧
    militaryToAMPM "1200" = some "12pm" := by
  decide

/-- C3: the claim that the formatter is total fails on the code. On every
nonempty input whose normalized form has fewer than 3 digits (here the
inputs 12, 0 and a lone colon) the source reads the length property of the
undefined minutes variable and throws a TypeError, modelled as none; no
fallback string is returned. -/
theorem militaryToAMPM_throws_on_short_input :
    militaryToAMPM "12" = none ∧
    militaryToAMPM "0" = none ∧
    militaryToAMPM ":" = none := by
  decide

/-! ## DistanceRanker: sortNearbyMarkers and dynamicSort (util/general) -/

/-- A located entity as the ranker sees it: a numeric distance field plus a
payload telling elements apart (the ranker assumes no identity beyond the
distance field, so the tag stands for all other object state). -/
structure Marker where
  distance : Int
  tag : Nat
deriving DecidableEq

/-- The comparator sortNearbyMarkers from util/general: minus one when the
first distance is smaller, one when it is larger, zero otherwise. -/
def sortNearbyMarkers (a b : Marker) : Int :=
  if a.distance < b.distance then -1
  else if a.distance > b.distance then 1
  else 0

/-- The generic comparator factory dynamicSort from util/general; property
access on a JavaScript object is modelled as a projection function. -/
def dynamicSort {α : Type} (prop : α → Int) : α → α → Int :=
  fun a b => if prop a < prop b then -1 else if prop a > prop b then 1 else 0

/-- Modelled from the spec: DistanceRanker.rank, the sort driver that feeds
the comparator sortNearbyMarkers to a stable sort (JavaScript
Array.prototype.sort is required to be stable); the call site is not among
the sources, only the comparator is. An element a precedes b when the
comparator does not order it after b. -/
def rank (l : List Marker) : List Marker :=
  l.mergeSort fun a b => decide (sortNearbyMarkers a b ≤ 0)

/-- The boolean order fed to the stable sort holds exactly when the first
distance is at most the second. -/
theorem sortNearbyMarkers_le_iff (a b : Marker) :
    decide (sortNearbyMarkers a b ≤ 0) = true ↔ a.distance ≤ b.distance := by
  simp only [sortNearbyMarkers, decide_eq_true_eq]
  split
  · omega
  · split <;> omega

theorem rank_le_trans (a b c : Marker)
    (hab : decide (sortNearbyMarkers a b ≤ 0) = true)
    (hbc : decide (sortNearbyMarkers b c ≤ 0) = true) :
    decide (sortNearbyMarkers a c ≤ 0) = true := by
  rw [sortNearbyMarkers_le_iff] at *
  omega

theorem rank_le_total (a b : Marker) :
    (decide (sortNearbyMarkers a b ≤ 0) || decide (sortNearbyMarkers b a ≤ 0)) = true := by
  rw [Bool.or_eq_true, sortNearbyMarkers_le_iff, sortNearbyMarkers_le_iff]
  omega

/-- C5: ranking by the distance comparator returns the empty sequence on
empty input, and on every input returns a permutation of the input that is
sorted ascending by distance and stable: for each fixed distance value, the
elements carrying it appear in the output in their original input order. -/
theorem rank_sorted_stable_perm :
    rank [] = [] ∧
    (∀ l : List Marker, (rank l).Perm l) ∧
    (∀ l : List Marker,
      List.Sorted (fun a b : Marker => a.distance ≤ b.distance) (rank l)) ∧
    (∀ (l : List Marker) (d : Int),
      (rank l).filter (fun m => decide (m.distance = d)) =
        l.filter (fun m => decide (m.distance = d))) := by
  refine ⟨List.mergeSort_nil, fun l => List.mergeSort_perm l _, fun l => ?_, fun l d => ?_⟩
  · have h := List.sorted_mergeSort rank_le_trans rank_le_total l
    exact List.Pairwise.imp (fun hab => (sortNearbyMarkers_le_iff _ _).mp hab) h
  · set p : Marker → Bool := fun m => decide (m.distance = d) with hp
    have hall : ∀ a ∈ l.filter p, a.distance = d := by
      intro a ha
      have := (List.mem_filter.mp ha).2
      simpa [hp] using this
    have hpw : (l.filter p).Pairwise
        (fun a b => decide (sortNearbyMarkers a b ≤ 0) = true) := by
      refine List.pairwise_of_forall_mem_list ?_
      intro a ha b hb
      rw [sortNearbyMarkers_le_iff, hall a ha, hall b hb]
    have hsub : (l.filter p).Sublist (rank l) :=
      List.sublist_mergeSort rank_le_trans rank_le_total hpw (List.filter_sublist l)
    have hkeep : (l.filter p).filter p = l.filter p :=
      List.filter_eq_self.mpr fun a ha => (List.mem_filter.mp ha).2
    have hsub2 : (l.filter p).Sublist ((rank l).filter p) := by
      have h := hsub.filter p
      rwa [hkeep] at h
    have hperm : ((rank l).filter p).Perm (l.filter p) :=
      (List.mergeSort_perm l _).filter p
    exact (hsub2.eq_of_length hperm.length_eq.symm).symm

/-- C10: on objects carrying a distance field the dedicated comparator
sortNearbyMarkers agrees with the generic comparator dynamicSort applied to
the distance property at every pair of arguments, so sorting any list with
either comparator yields the same result. -/
theorem sortNearbyMarkers_eq_dynamicSort :
    (∀ a b : Marker, sortNearbyMarkers a b = dynamicSort (fun m => m.distance) a b) ∧
    (∀ l : List Marker,
      l.mergeSort (fun a b => decide (sortNearbyMarkers a b ≤ 0)) =
        l.mergeSort (fun a b => decide (dynamicSort (fun m => m.distance) a b ≤ 0))) :=
  ⟨fun _ _ => rfl, fun _ => rfl⟩

/-! ## StopPollScheduler: ShuttleStop timer and tick handler -/

/-- The poll interval constant stopUpdateInterval from ShuttleStop. -/
def stopUpdateInterval : Nat := 6000

/-- JavaScript setInterval semantics, as used through the timer mixin by
startShuttleWatch: with interval I registered at time 0, the callback fires
at times I, 2I, 3I, and so on; it never fires at registration time itself.
componentDidMount only registers this timer (besides logging); it does not
invoke the tick handler directly. -/
def setIntervalFires (interval t : Nat) : Bool :=
  decide (0 < t) && decide (t % interval = 0)

/-- Whether tryUpdateStop runs at time t milliseconds after the view
mounts: exactly when the single interval timer armed by startShuttleWatch
fires. -/
def pollDispatchAt (t : Nat) : Bool :=
  setIntervalFires stopUpdateInterval t

/-- Observable state of one poll session: how many dispatched fetches have
not yet completed, and how many were ever issued. Modelled from the spec
for the part outside the sources: dispatching updateArrivals(stopID) issues
one ArrivalFetcher fetch which stays outstanding until its completion event
(the updateArrivals action itself is not among the source files; the tick
handler tryUpdateStop that dispatches it is). -/
structure PollState where
  outstanding : Nat
  issued : Nat
deriving DecidableEq

/-- The tick handler tryUpdateStop from ShuttleStop: it reads the stop
identifier and dispatches updateArrivals unconditionally. There is no
in-flight flag anywhere in the component, so nothing is checked before
dispatching. -/
def tryUpdateStop (s : PollState) : PollState :=
  { outstanding := s.outstanding + 1, issued := s.issued + 1 }

/-- Events of a session trace: a timer tick, or the completion (success or
failure) of one previously issued fetch. -/
inductive PollEv where
  | tick : PollEv
  | complete : PollEv

/-- Trace step: a tick runs tryUpdateStop; a completion retires one
outstanding fetch. -/
def pollStep (s : PollState) : PollEv → PollState
  | PollEv.tick => tryUpdateStop s
  | PollEv.complete => { s with outstanding := s.outstanding - 1 }

/-- Run a session trace from a starting state. -/
def runPoll (s : PollState) (evs : List PollEv) : PollState :=
  evs.foldl pollStep s

/-- Whether an event is a timer tick. -/
def isTick : PollEv → Bool
  | PollEv.tick => true
  | PollEv.complete => false

/-- C1 counterexample: a second tick arriving while the fetch of the first
tick is still in flight (no completion in between, the slow-network case)
is not skipped; after the two ticks two fetches are outstanding, violating
the claimed at-most-one bound. -/
theorem second_tick_during_inflight_not_skipped :
    (runPoll { outstanding := 0, issued := 0 } [PollEv.tick, PollEv.tick]).outstanding = 2 := by
  decide

theorem runPoll_issued (s : PollState) (evs : List PollEv) :
    (runPoll s evs).issued = s.issued + (evs.filter isTick).length := by
  induction evs generalizing s with
  | nil => simp [runPoll]
  | cons e evs ih =>
    have h : runPoll s (e :: evs) = runPoll (pollStep s e) evs := rfl
    rw [h, ih]
    cases e
    · simp [pollStep, tryUpdateStop, isTick, List.filter_cons]
      omega
    · simp [pollStep, tryUpdateStop, isTick, List.filter_cons]

theorem runPoll_ticks_outstanding (s : PollState) (n : Nat) :
    (runPoll s (List.replicate n PollEv.tick)).outstanding = s.outstanding + n := by
  induction n generalizing s with
  | zero => simp [runPoll]
  | succ k ih =>
    rw [List.replicate_succ]
    show (runPoll (pollStep s PollEv.tick) (List.replicate k PollEv.tick)).outstanding = _
    rw [ih]
    simp [pollStep, tryUpdateStop]
    omega

/-- C1 amended: every timer tick dispatches a fetch unconditionally (the
number of fetches ever issued equals the number of ticks in the trace), so
with a network slower than the interval the backlog of outstanding fetches
grows without bound: n consecutive ticks with no completion leave n fetches
outstanding. -/
theorem every_tick_dispatches :
    (∀ (s : PollState) (evs : List PollEv),
      (runPoll s evs).issued = s.issued + (evs.filter isTick).length) ∧
    (∀ n : Nat,
      (runPoll { outstanding := 0, issued := 0 } (List.replicate n PollEv.tick)).outstanding
        = n) :=
  ⟨runPoll_issued, fun n => by rw [runPoll_ticks_outstanding]; simp⟩

/-- C2 counterexample: no poll attempt is dispatched at start time; the
claimed immediate first fetch does not happen. -/
theorem no_poll_at_start_time : pollDispatchAt 0 = false := by
  decide

/-- C2 amended: starting the watcher only arms the repeating 6000 ms
timer: no poll attempt is dispatched before one full interval has elapsed,
a poll attempt is dispatched at every positive multiple of 6000 ms, and
these are the only dispatch times. -/
theorem polls_at_positive_multiples_of_interval :
    (∀ t : Nat, t < stopUpdateInterval → pollDispatchAt t = false) ∧
    (∀ k : Nat, pollDispatchAt ((k + 1) * stopUpdateInterval) = true) ∧
    (∀ t : Nat, pollDispatchAt t = true → 0 < t ∧ t % stopUpdateInterval = 0) := by
  refine ⟨fun t ht => ?_, fun k => ?_, fun t ht => ?_⟩
  · simp only [pollDispatchAt, setIntervalFires, stopUpdateInterval] at *
    rcases Nat.eq_zero_or_pos t with h0 | hpos
    · simp [h0]
    · have : t % 6000 = t := Nat.mod_eq_of_lt ht
      simp only [Bool.and_eq_false_iff, decide_eq_false_iff_not]
      right
      omega
  · simp only [pollDispatchAt, setIntervalFires, stopUpdateInterval]
    simp [Nat.mul_mod_left]
  · simp only [pollDispatchAt, setIntervalFires, Bool.and_eq_true,
      decide_eq_true_eq] at ht
    exact ht

/-- Witness for the amended C2 theorem at concrete times: nothing is
dispatched at 59 ms, and the first dispatch time 6000 ms does fire. -/
theorem polls_at_positive_multiples_of_interval_witness :
    pollDispatchAt 59 = false ∧ pollDispatchAt 6000 = true := by
  constructor
  · exact polls_at_positive_multiples_of_interval.1 59 (by decide)
  · have h := polls_at_positive_multiples_of_interval.2.1 0
    simpa using h

/-! ## ReloadIndicatorController: the reload animation helpers (util/general) -/

/-- One Animated.timing invocation as started by the source helpers: it
captures the animated value current at the moment start is called and moves
it linearly to toValue over the given duration in milliseconds. -/
structure AnimTiming where
  startVal : ℚ
  toValue : ℚ
  duration : Nat

/-- Value of a running timing animation t milliseconds after start: linear
interpolation from the captured start value to the target, held at the
target once the duration has elapsed (a zero duration jumps to the target
immediately). -/
def valueAt (a : AnimTiming) (t : Nat) : ℚ :=
  if a.duration ≤ t then a.toValue
  else a.startVal + (a.toValue - a.startVal) * (t : ℚ) / (a.duration : ℚ)

/-- startReloadAnimation from util/general: Animated.timing toward 100 over
60000 ms with linear easing, starting from the current value v of the
animated quantity; the source never resets the value before starting. -/
def startReloadAnimation (v : ℚ) : AnimTiming :=
  { startVal := v, toValue := 100, duration := 60000 }

/-- startReloadAnimation2 from util/general: the parameterized variant
taking the target value and duration. -/
def startReloadAnimation2 (v toVal : ℚ) (duration : Nat) : AnimTiming :=
  { startVal := v, toValue := toVal, duration := duration }

/-- stopReloadAnimation from util/general: Animated.timing toward 0 with
duration 0. -/
def stopReloadAnimation (v : ℚ) : AnimTiming :=
  { startVal := v, toValue := 0, duration := 0 }

/-- C7 counterexample: starting the reload animation with the indicator
currently at 50 begins the ramp at 50, not at 0; the indicator is not
snapped to 0 first. -/
theorem startReloadAnimation_not_from_zero :
    valueAt (startReloadAnimation 50) 0 = 50 := by
  norm_num [valueAt, startReloadAnimation]

/-- C7 amended: startReloadAnimation ramps linearly from whatever value the
indicator currently has toward the saturation value 100 over 60000 ms,
without first snapping the indicator to 0; a cycle starts at 0 only when
the previous value already was 0. -/
theorem startReloadAnimation_ramps_from_current (v : ℚ) (t : Nat) (h : t ≤ 60000) :
    valueAt (startReloadAnimation v) t = v + (100 - v) * (t : ℚ) / 60000 ∧
    valueAt (startReloadAnimation v) 0 = v ∧
    (startReloadAnimation v).toValue = 100 := by
  refine ⟨?_, ?_, rfl⟩
  · rcases Nat.lt_or_ge t 60000 with hlt | hge
    · simp only [valueAt, startReloadAnimation]
      rw [if_neg (by omega)]
      norm_num
    · have ht : t = 60000 := by omega
      subst ht
      simp only [valueAt, startReloadAnimation]
      rw [if_pos (by omega)]
      push_cast
      ring_nf
  · simp only [valueAt, startReloadAnimation]
    rw [if_neg (by omega)]
    norm_num

/-- Witness for the amended C7 theorem: starting from 50, the ramp passes
through 75 halfway into the 60000 ms duration. -/
theorem startReloadAnimation_ramps_witness :
    valueAt (startReloadAnimation 50) 30000 = 75 := by
  have h := (startReloadAnimation_ramps_from_current 50 30000 (by norm_num)).1
  rw [h]
  norm_num

/-- C8: stopping the reload animation uses a zero duration and pins the
indicator at 0 at every instant from the moment it starts, whatever value
an in-progress ramp had reached. -/
theorem stopReloadAnimation_snaps_to_zero (v : ℚ) (t : Nat) :
    valueAt (stopReloadAnimation v) t = 0 ∧
    (stopReloadAnimation v).duration = 0 := by
  constructor
  · simp [valueAt, stopReloadAnimation]
  · rfl

/-! ## Directions handoff: platformIOS and getDirectionsURL (util/general) -/

/-- platformIOS from util/general: whether Platform.OS equals the string
ios. The platform identifier is passed in explicitly. -/
def platformIOS (os : String) : Bool :=
  decide (os = "ios")

/-- getDirectionsURL from util/general, with the platform identifier made
explicit: four string templates, chosen by platform and by whether the
travel method is walk. -/
def getDirectionsURL (os method stopLat stopLon : String) : String :=
  if platformIOS os then
    if method = "walk" then
      "http://maps.apple.com/?saddr=Current%20Location&daddr=" ++ stopLat ++ "," ++ stopLon
        ++ "&dirflg=w"
    else
      "http://maps.apple.com/?saddr=Current%20Location&daddr=" ++ stopLat ++ "," ++ stopLon
        ++ "&dirflg=d"
  else
    if method = "walk" then
      "https://maps.google.com/maps?saddr=Current+Location&daddr=" ++ stopLat ++ "," ++ stopLon
        ++ "&dirflg=w"
    else
      "https://maps.google.com/maps?saddr=Current+Location&daddr=" ++ stopLat ++ "," ++ stopLon
        ++ "&dirflg=d"

/-- The Apple Maps destination template shared by both iOS branches. -/
def appleDaddr (stopLat stopLon : String) : String :=
  "http://maps.apple.com/?saddr=Current%20Location&daddr=" ++ stopLat ++ "," ++ stopLon

/-- The Google Maps destination template shared by both non-iOS branches. -/
def googleDaddr (stopLat stopLon : String) : String :=
  "https://maps.google.com/maps?saddr=Current+Location&daddr=" ++ stopLat ++ "," ++ stopLon

/-- C9: for every destination and method the directions URL is the platform
template (Apple Maps on iOS, Google Maps otherwise; the two templates
differ at every destination) followed by the walking flag exactly when the
method is walk and by the driving flag for every other method. -/
theorem getDirectionsURL_platform_and_flag (os method stopLat stopLon : String) :
    getDirectionsURL os method stopLat stopLon =
      (if platformIOS os then appleDaddr stopLat stopLon else googleDaddr stopLat stopLon)
        ++ (if method = "walk" then "&dirflg=w" else "&dirflg=d") ∧
    appleDaddr stopLat stopLon ≠ googleDaddr stopLat stopLon := by
  constructor
  · by_cases h1 : platformIOS os <;> by_cases h2 : method = "walk" <;>
      simp [getDirectionsURL, appleDaddr, googleDaddr, h1, h2, String.append_assoc]
  · intro h
    have hl := congrArg String.length h
    simp only [appleDaddr, googleDaddr, String.length_append] at hl
    have h1 : ("http://maps.apple.com/?saddr=Current%20Location&daddr=" : String).length
        = 54 := rfl
    have h2 : ("https://maps.google.com/maps?saddr=Current+Location&daddr=" : String).length
        = 58 := rfl
    have h3 : ("," : String).length = 1 := rfl
    rw [h1, h2, h3] at hl
    omega

/-- Witness for the C9 theorem at a concrete destination: on iOS with the
walk method the produced URL is the Apple template with the walking flag. -/
theorem getDirectionsURL_platform_and_flag_witness :
    getDirectionsURL "ios" "walk" "32.88" "-117.234" =
      appleDaddr "32.88" "-117.234" ++ "&dirflg=w" := by
  have h := (getDirectionsURL_platform_and_flag "ios" "walk" "32.88" "-117.234").1
  simpa [platformIOS] using h

/-! ## ArrivalFetcher: DiningService.FetchDining -/

/-- The decoded JSON body of a successfully transported dining response:
the optional application-level error-message field, and the result payload
at the known path, kept abstract so the fetcher cannot parse it. -/
structure DiningResponse (α : Type) where
  errorMessage : Option String
  getDiningInfoResult : α

/-- FetchDining from DiningService, from the point where the transported
response has been decoded: when the error-message field is truthy (present
and nonempty, by JavaScript string truthiness) the promise rejects with
that message; otherwise it resolves with the raw result payload unchanged. -/
def FetchDining {α : Type} (resp : DiningResponse α) : Except String α :=
  match resp.errorMessage with
  | some msg => if msg = "" then Except.ok resp.getDiningInfoResult else Except.error msg
  | none => Except.ok resp.getDiningInfoResult

/-- C6 counterexample: a response that carries the error-message field with
the empty string as its value is falsy in the source test, so the fetch
silently succeeds with the payload although the field is present. -/
theorem fetchDining_empty_message_succeeds :
    FetchDining { errorMessage := some "", getDiningInfoResult := (7 : Nat) }
      = Except.ok 7 := rfl

/-- C6 amended: the fetch fails with the application error message exactly
when the response carries a nonempty error-message value, and otherwise it
succeeds with the raw result payload unparsed. -/
theorem fetchDining_error_field {α : Type} (resp : DiningResponse α) :
    (∀ msg : String, resp.errorMessage = some msg → msg ≠ "" →
      FetchDining resp = Except.error msg) ∧
    ((resp.errorMessage = none ∨ resp.errorMessage = some "") →
      FetchDining resp = Except.ok resp.getDiningInfoResult) := by
  constructor
  · intro msg hmem hne
    simp [FetchDining, hmem, hne]
  · rintro (hnone | hempty)
    · simp [FetchDining, hnone]
    · simp [FetchDining, hempty]

/-- Witness for the amended C6 theorem: a response carrying a nonempty
error message is rejected with exactly that message. -/
theorem fetchDining_error_field_witness :
    FetchDining { errorMessage := some "boom", getDiningInfoResult := (3 : Nat) }
      = Except.error "boom" :=
  (fetchDining_error_field { errorMessage := some "boom", getDiningInfoResult := (3 : Nat) }).1
    "boom" rfl (by simp)

end CampusMobile
